import Mathlib

/-!
# Verification of the iroha node core against its specification

Shallow embedding of the four source files:
* `src/irohad/ametsuchi/impl/storage_impl.cpp` (`StorageImpl`)
* `src/irohad/simulator/impl/simulator.cpp` (`Simulator`)
* `src/core/connection/api/command_service.cpp` (`CommandService::Torii`)
* `src/irohad/main/service.cpp` (`Application` wiring)

Machine integers (`uint32_t`, `uint64_t`) are modelled as `Nat`; the heights
involved never approach `2^32` in any statement below, so no wrap-around is
modelled.  `hash256_t` is modelled as `Nat`, with `0` playing the role of the
all-zero 32-byte hash produced by `hash256_t{}`.  External collaborators that
are out of scope of the repository (PostgreSQL, Redis, the crypto provider,
the stateful/stateless validators) are modelled as explicit behaviour
parameters, so each embedded function is a pure function of the code's
inputs and of the collaborators' answers.
-/

/-- `hash256_t` modelled as `Nat`; `0` is the all-zero hash `hash256_t{}`. -/
abbrev Hash256 := Nat

/-- `model::Signature`: a (pubkey, signature) pair.  The default-constructed
signature `{}` is `⟨0, 0⟩`. -/
structure Signature where
  pubkey : Nat
  sig : Nat
deriving DecidableEq, Repr

/-- `model::Transaction`, reduced to the two attributes the four source files
consult: its identifying hash, and whether its signature set verifies
(signature checking itself is an external collaborator, spec §1). -/
structure Transaction where
  hash : Nat
  sigsValid : Bool
deriving DecidableEq, Repr

/-- `model::Block` with the fields the source reads and writes. -/
structure Block where
  height : Nat
  prev_hash : Hash256
  transactions : List Transaction
  txs_number : Nat
  created_ts : Nat
  merkle_root : Hash256
  hash : Hash256
  sigs : List Signature
deriving DecidableEq, Repr

/-- The default-constructed `model::Block()`: zero-initialised scalars,
all-zero hashes, empty vectors (as set by `last_block = model::Block();`
in `Simulator::process_proposal`). -/
def Block.zero : Block :=
  { height := 0, prev_hash := 0, transactions := [], txs_number := 0,
    created_ts := 0, merkle_root := 0, hash := 0, sigs := [] }

/-- `model::Proposal`: an ordered transaction list plus a height. -/
structure Proposal where
  height : Nat
  transactions : List Transaction
deriving DecidableEq, Repr

/-! ## Torii command service (`src/core/connection/api/command_service.cpp`)

`CommandService::Torii` calls `validator::stateless::validate(request)`; on
success it calls `ordering::queue::append(request)`.  In both branches it
assigns a default-constructed `ToriiResponse` to `*response` and returns
`grpc::Status::OK`.  The stateless validator and the ordering queue live
outside the given sources, so the validator is a behaviour parameter and the
queue is an explicit list. -/

/-- Modelled from the spec: the status code carried by the protocol-buffer
`ToriiResponse` — spec §6 requires the response to bear "a status code", and
scenario 2 (§8) names the value `STATELESS_FAILED`.  `unset` is the
default-constructed protobuf value. -/
inductive ResponseCode
  | unset
  | accepted
  | statelessFailed
deriving DecidableEq, Repr

/-- Modelled from the spec: the protocol-buffer `ToriiResponse` — spec §6:
"a response bearing a status code and, when accepted, the transaction
hash". -/
structure ToriiResponse where
  code : ResponseCode
  txHash : Option Nat
deriving DecidableEq, Repr

/-- The default-constructed `ToriiResponse()` the source assigns in both
branches: no status code set, no transaction hash. -/
def ToriiResponse.protoDefault : ToriiResponse :=
  { code := ResponseCode.unset, txHash := none }

/-- `grpc::Status` as returned by the handler (the source only ever returns
`grpc::Status::OK`). -/
inductive GrpcStatus
  | ok
deriving DecidableEq, Repr

/-- Result of one `CommandService::Torii` call: the ordering queue after the
call, the response written to `*response`, and the returned gRPC status. -/
structure ToriiOutcome where
  queue : List Transaction
  response : ToriiResponse
  status : GrpcStatus
deriving DecidableEq, Repr

/-- `CommandService::Torii` (command_service.cpp lines 26–42):
`if (validate(request)) { queue::append(request); *response = ToriiResponse(); }
else { *response = ToriiResponse(); } return Status::OK;`. -/
def CommandService.Torii (validate : Transaction → Bool)
    (queue : List Transaction) (t : Transaction) : ToriiOutcome :=
  if validate t then
    { queue := queue ++ [t], response := ToriiResponse.protoDefault,
      status := GrpcStatus.ok }
  else
    { queue := queue, response := ToriiResponse.protoDefault,
      status := GrpcStatus.ok }

/-- The stateless validator instantiated for concrete inputs: a transaction
passes iff its signature set verifies (spec §4.2's signature clause, the
part scenario 2 exercises). -/
def sigValidate (t : Transaction) : Bool := t.sigsValid

/-! ## Block query (`RedisFlatBlockQuery`, used through `BlockQuery`)

`RedisFlatBlockQuery` is part of this repository but not among the given
sources; only its call sites are.  Its observables are modelled from the
spec. -/

/-- Modelled from the spec: the block store is a "durable ordered log mapping
height → Block" (§3); `getBlocks(from, to)` yields the stored blocks whose
height lies in `[from, to)`, in store order (and `Simulator` only ever keeps
the last block of the stream). -/
def getBlocks (store : List Block) (lo hi : Nat) : List Block :=
  store.filter (fun blk => decide (lo ≤ blk.height) && decide (blk.height < hi))

/-- The last stored block of height exactly `h` (the block the
`getBlocks(h, h+1)` subscription leaves behind), phrased through `getBlocks`
so that the correspondence is definitional. -/
def blockAt (store : List Block) (h : Nat) : Option Block :=
  (getBlocks store h (h + 1)).getLast?

/-- One step of the scan for the maximum-height block. -/
def topBlockStep (acc : Option Block) (blk : Block) : Option Block :=
  match acc with
  | none => some blk
  | some m => if m.height ≤ blk.height then some blk else some m

/-- Modelled from the spec: `getTopBlocks(1)` yields the block at the
"canonical chain head … the maximum height present" (§3), when the store is
non-empty.  Later blocks of equal height shadow earlier ones, matching the
subscription that overwrites `top_hash` per received block. -/
def topBlock (store : List Block) : Option Block :=
  store.foldl topBlockStep none

/-! ## Storage (`src/irohad/ametsuchi/impl/storage_impl.cpp`) -/

/-- The WSV session state touched by the statements the `StorageImpl`
constructor executes.  PostgreSQL session defaults: not read-only, default
(non-serializable) isolation. -/
structure SessionCharacteristics where
  readOnly : Bool
  serializable : Bool
deriving DecidableEq, Repr

/-- The SQL statements relevant to the session characteristics.
`schemaInit` stands for the `init_` script — modelled from the spec: §6
describes the WSV schema as "a relational schema with tables for accounts,
peers, asset definitions, balances, permissions, and signatories"; creating
tables does not alter session characteristics. -/
inductive SqlStatement
  | schemaInit
  | setSessionReadOnly
  | setSessionSerializable
deriving DecidableEq, Repr

/-- Effect of one statement on the session characteristics. -/
def applySql (s : SessionCharacteristics) : SqlStatement → SessionCharacteristics
  | SqlStatement.schemaInit => s
  | SqlStatement.setSessionReadOnly => { s with readOnly := true }
  | SqlStatement.setSessionSerializable => { s with serializable := true }

/-- The statements the `StorageImpl` constructor executes on the WSV session
(storage_impl.cpp lines 49–51): `wsv_transaction_->exec(init_);` then
`wsv_transaction_->exec("SET SESSION CHARACTERISTICS AS TRANSACTION READ
ONLY;");`. -/
def storageCtorStatements : List SqlStatement :=
  [SqlStatement.schemaInit, SqlStatement.setSessionReadOnly]

/-- WSV session characteristics after `StorageImpl` construction, starting
from the PostgreSQL session defaults. -/
def wsvSessionAfterInit : SessionCharacteristics :=
  storageCtorStatements.foldl applySql
    { readOnly := false, serializable := false }

/-- `MutableStorageImpl`, with the members `StorageImpl` reads: the top-block
hash passed at construction, the staged-block map `block_store_`
(`std::map<uint32_t, model::Block>`, modelled as an association list whose
std::map iteration order is its list order), and the `committed` flag set by
`StorageImpl::commit`.  The class definition itself is not among the given
sources; these members and their use are taken from
`StorageImpl::createMutableStorage` and `StorageImpl::commit`. -/
structure MutableStorageImpl where
  top_hash : Hash256
  block_store_ : List (Nat × Block)
  committed : Bool
deriving DecidableEq, Repr

/-- Answers of the external backends consulted by
`StorageImpl::createMutableStorage`: whether
`model::CommandExecutorFactory::create()` yields a value, whether
`postgres_connection->activate()` succeeds, and whether
`index->connect(host, port)` succeeds for a given endpoint. -/
structure CreateBehavior where
  cmdExecFactoryOk : Bool
  pgActivateOk : Bool
  redisConnectOk : String → Nat → Bool

/-- The endpoint configuration held by `StorageImpl` (`redis_` and
`postgres_` members). -/
structure StorageConfig where
  redisHost : String
  redisPort : Nat
  pgHost : String
  pgPort : Nat

/-- `StorageImpl::createMutableStorage` (storage_impl.cpp lines 79–118).
Note the source connects the fresh redis client to `postgres_.host,
postgres_.port` (line 99).  The `getTopBlocks(1)` subscription leaves
`top_hash = some (top block hash)` when a top block exists, `none`
otherwise, and the constructor argument is `top_hash.value_or(hash256_t{})`.
A fresh `MutableStorageImpl` has no staged blocks and is not committed. -/
def StorageImpl.createMutableStorage (b : CreateBehavior) (cfg : StorageConfig)
    (store : List Block) : Option MutableStorageImpl :=
  if !b.cmdExecFactoryOk then none
  else if !b.pgActivateOk then none
  else if !(b.redisConnectOk cfg.pgHost cfg.pgPort) then none
  else
    let top_hash : Option Hash256 := (topBlock store).map (fun blk => blk.hash)
    some { top_hash := top_hash.getD 0, block_store_ := [], committed := false }


/-- The steps of `StorageImpl::commit` as observable events, in the order the
source performs them.  `lockAcquire`/`lockRelease` are the construction and
(scope-exit) destruction of the `std::unique_lock` on `rw_lock_`. -/
inductive CommitEvent
  | lockAcquire
  | appendBlock (id : Nat)
  | indexExec
  | indexSyncCommit
  | wsvCommit
  | lockRelease
deriving DecidableEq, Repr

/-- The backend operation at which a commit can fail.  Modelled from the
spec: §7 "Transient backend: WSV/index/block-store I/O failure" — the
backends themselves are external processes. -/
inductive BackendStep
  | blockStoreAdd (id : Nat)
  | indexExec
  | indexSyncCommit
  | wsvCommit
deriving DecidableEq, Repr

/-- What a failed commit surfaces to the caller.  `CommitFailed` is the
error value the spec names (§4.1/§7); `BackendFailure s` is the raw backend
exception escaping from step `s` (the source installs no handler inside
`StorageImpl::commit`, so a backend exception propagates unchanged). -/
inductive StorageError
  | CommitFailed
  | BackendFailure (s : BackendStep)
deriving DecidableEq, Repr

/-- Failure injection for the backend calls made by `StorageImpl::commit`:
whether `block_store_->add(id, …)` succeeds for a given id, and whether the
index `exec()`, the index `sync_commit()`, and the WSV `exec("COMMIT;")`
succeed. -/
structure CommitBehavior where
  addOk : Nat → Bool
  indexExecOk : Bool
  indexSyncCommitOk : Bool
  wsvCommitOk : Bool

/-- Modelled from the spec: the "canonical serialized form" of a block
(§4.1) — the source computes
`stringToBytes(jsonToString(serializer_.serialize(block)))`; the JSON
serializer lives outside the given sources, so the byte string is modelled
as a flattening of the block's fields. -/
def serializeBlock (b : Block) : List Nat :=
  [b.height, b.prev_hash, b.merkle_root, b.created_ts, b.txs_number, b.hash]
    ++ b.transactions.map (fun t => t.hash)

/-- The `for (const auto &entry : storage->block_store_)` loop of
`StorageImpl::commit`: appends each staged block to the flat-file block
store in iteration order, stopping with the failing id when an add throws.
Returns the append events emitted, the files written (id, bytes), and the
id of the failed add, if any. -/
def appendStagedBlocks (b : CommitBehavior) :
    List (Nat × Block) → List CommitEvent × List (Nat × List Nat) × Option Nat
  | [] => ([], [], none)
  | (id, blk) :: rest =>
    if b.addOk id then
      let r := appendStagedBlocks b rest
      (CommitEvent.appendBlock id :: r.1, (id, serializeBlock blk) :: r.2.1, r.2.2)
    else
      ([], [], some id)

/-- Result of one `StorageImpl::commit` call: the event trace, the error
escaping to the caller (if any), the flat-file block store after the call,
and the mutable view's `committed` flag after the call. -/
structure CommitOutcome where
  trace : List CommitEvent
  error : Option StorageError
  blockFiles : List (Nat × List Nat)
  committed : Bool
deriving Repr

/-- `StorageImpl::commit` (storage_impl.cpp lines 180–197), step for step:
acquire the write half of `rw_lock_`; append every entry of the view's
`block_store_` map to the flat-file store; `index_->exec()`;
`index_->sync_commit()`; `transaction_->exec("COMMIT;")`;
`storage->committed = true`.  On a backend exception the remaining steps are
skipped, the exception propagates raw, `committed` stays `false`, and stack
unwinding still releases the `std::unique_lock`. -/
def StorageImpl.commit (b : CommitBehavior) (bs0 : List (Nat × List Nat))
    (ms : MutableStorageImpl) : CommitOutcome :=
  let r := appendStagedBlocks b ms.block_store_
  match r.2.2 with
  | some id =>
    { trace := [CommitEvent.lockAcquire] ++ r.1 ++ [CommitEvent.lockRelease],
      error := some (StorageError.BackendFailure (BackendStep.blockStoreAdd id)),
      blockFiles := bs0 ++ r.2.1, committed := false }
  | none =>
    if !b.indexExecOk then
      { trace := [CommitEvent.lockAcquire] ++ r.1 ++ [CommitEvent.lockRelease],
        error := some (StorageError.BackendFailure BackendStep.indexExec),
        blockFiles := bs0 ++ r.2.1, committed := false }
    else if !b.indexSyncCommitOk then
      { trace := [CommitEvent.lockAcquire] ++ r.1
          ++ [CommitEvent.indexExec, CommitEvent.lockRelease],
        error := some (StorageError.BackendFailure BackendStep.indexSyncCommit),
        blockFiles := bs0 ++ r.2.1, committed := false }
    else if !b.wsvCommitOk then
      { trace := [CommitEvent.lockAcquire] ++ r.1
          ++ [CommitEvent.indexExec, CommitEvent.indexSyncCommit,
              CommitEvent.lockRelease],
        error := some (StorageError.BackendFailure BackendStep.wsvCommit),
        blockFiles := bs0 ++ r.2.1, committed := false }
    else
      { trace := [CommitEvent.lockAcquire] ++ r.1
          ++ [CommitEvent.indexExec, CommitEvent.indexSyncCommit,
              CommitEvent.wsvCommit, CommitEvent.lockRelease],
        error := none,
        blockFiles := bs0 ++ r.2.1, committed := true }

/-- A `CommitBehavior` in which every backend call succeeds. -/
def CommitBehavior.allOk (b : CommitBehavior) : Prop :=
  (∀ id, b.addOk id = true) ∧ b.indexExecOk = true
    ∧ b.indexSyncCommitOk = true ∧ b.wsvCommitOk = true


/-! ## Simulator (`src/irohad/simulator/impl/simulator.cpp`) -/

/-- The `Simulator`'s only mutable member: the `last_block` cache. -/
structure SimulatorState where
  last_block : Block
deriving DecidableEq, Repr

/-- Result of one `Simulator::process_proposal` call: the `last_block` cache
after the call, whether `createTemporaryWsv()` was invoked, and the verified
proposal pushed to the notifier (at most one per call). -/
structure ProposalOutcome where
  state : SimulatorState
  temporaryWsvOpened : Bool
  emitted : Option Proposal
deriving DecidableEq, Repr

/-- `Simulator::process_proposal` (simulator.cpp lines 46–62):
`last_block = model::Block();` then the blocking
`getBlocks(height - 1, height)` subscription overwrites `last_block` with
each received block; `if (last_block.height + 1 != proposal.height) return;`
else open a temporary WSV and emit `validator_->validate(proposal, wsv)`.
The stateful validator is an external collaborator here, passed as
`validate`. -/
def Simulator.process_proposal (validate : Proposal → Proposal)
    (store : List Block) (p : Proposal) : ProposalOutcome :=
  let last_block :=
    ((getBlocks store (p.height - 1) p.height).getLast?).getD Block.zero
  if last_block.height + 1 ≠ p.height then
    { state := { last_block := last_block }, temporaryWsvOpened := false,
      emitted := none }
  else
    { state := { last_block := last_block }, temporaryWsvOpened := true,
      emitted := some (validate p) }

/-- `Simulator::process_verified_proposal` (simulator.cpp lines 64–77),
field by field: `height = proposal.height`, `prev_hash = last_block.hash`,
`transactions = proposal.transactions`, `txs_number = transactions.size()`,
`created_ts = 0`, `merkle_root.fill(0)`, then
`hash = hash_provider_->get_hash(new_block)` (computed on the block as it
stands: zero hash field, empty `sigs`), then `sigs.push_back({})`.
The hash provider is an external collaborator, passed as `hashProv`. -/
def Simulator.process_verified_proposal (hashProv : Block → Hash256)
    (st : SimulatorState) (p : Proposal) : Block :=
  let b0 : Block :=
    { height := p.height, prev_hash := st.last_block.hash,
      transactions := p.transactions, txs_number := p.transactions.length,
      created_ts := 0, merkle_root := 0, hash := 0, sigs := [] }
  let b1 : Block := { b0 with hash := hashProv b0 }
  { b1 with sigs := [{ pubkey := 0, sig := 0 }] }

/-! ## Spec-side merkle root (spec §3, §4.5)

The spec defines `merkle_root` as "the root of a binary merkle tree over
transaction hashes (empty-list convention: all-zero root)".  The node-pair
combiner is the external hash, passed as a parameter. -/

/-- One level of the binary merkle tree: combine adjacent pairs, carrying an
odd last element up unchanged. -/
def merklePass (combine : Hash256 → Hash256 → Hash256) :
    List Hash256 → List Hash256
  | [] => []
  | [x] => [x]
  | x :: y :: rest => combine x y :: merklePass combine rest

/-- Root of the binary merkle tree over `l`, by repeated passes (the fuel
`l.length` bounds the pass count); empty-list convention: all-zero root. -/
def merkleRootAux (combine : Hash256 → Hash256 → Hash256) :
    Nat → List Hash256 → Hash256
  | _, [] => 0
  | _, [x] => x
  | 0, _ => 0
  | fuel + 1, l => merkleRootAux combine fuel (merklePass combine l)

/-- Modelled from the spec: the merkle root over a list of transaction
hashes (§3). -/
def merkleRoot (combine : Hash256 → Hash256 → Hash256)
    (l : List Hash256) : Hash256 :=
  merkleRootAux combine l.length l


/-! ## Concrete inputs used by counterexamples and witnesses -/

/-- A genesis-style block at height 1. -/
def blk1 : Block :=
  { height := 1, prev_hash := 0, transactions := [], txs_number := 0,
    created_ts := 11, merkle_root := 3, hash := 9, sigs := [] }

/-- A block at height 2 chaining on `blk1`. -/
def blk2 : Block :=
  { height := 2, prev_hash := 9, transactions := [], txs_number := 0,
    created_ts := 12, merkle_root := 4, hash := 17, sigs := [] }

/-- A two-block store: heights 1 and 2, head `blk2`. -/
def storeEx : List Block := [blk1, blk2]

/-- A concrete endpoint configuration. -/
def cfgEx : StorageConfig :=
  { redisHost := "redis-host", redisPort := 6379,
    pgHost := "pg-host", pgPort := 5432 }

/-- Backend answers under which `createMutableStorage` meets no obstacle. -/
def createAllOk : CreateBehavior :=
  { cmdExecFactoryOk := true, pgActivateOk := true,
    redisConnectOk := fun _ _ => true }

/-- Backend answers under which every call made by `StorageImpl::commit`
succeeds. -/
def commitAllOk : CommitBehavior :=
  { addOk := fun _ => true, indexExecOk := true,
    indexSyncCommitOk := true, wsvCommitOk := true }

/-- Backend answers under which every `block_store_->add` fails. -/
def commitAddFails : CommitBehavior :=
  { addOk := fun _ => false, indexExecOk := true,
    indexSyncCommitOk := true, wsvCommitOk := true }

/-- A mutable view with one staged block (height 1). -/
def msEx : MutableStorageImpl :=
  { top_hash := 0, block_store_ := [(1, blk1)], committed := false }

/-- A transaction with hash 7 and a valid signature set. -/
def txEx : Transaction := { hash := 7, sigsValid := true }

/-- A transaction whose signature set does not verify (a forged
signature). -/
def forgedTx : Transaction := { hash := 3, sigsValid := false }

/-- A transaction whose signature set verifies. -/
def validTx : Transaction := { hash := 4, sigsValid := true }

/-- A concrete merkle node combiner (stands for the external pair hash). -/
def combineEx (a b : Hash256) : Hash256 := 2 * a + 3 * b + 1

/-- A concrete block-hash provider (stands for
`HashProviderImpl::get_hash`). -/
def hashProvEx (b : Block) : Hash256 :=
  b.height + 10 * b.prev_hash + 100 * b.merkle_root + b.txs_number

/-- A simulator whose `last_block` cache holds `blk2`. -/
def simStateEx : SimulatorState := { last_block := blk2 }

/-- A verified proposal for height 3 carrying `txEx`. -/
def verifiedEx : Proposal := { height := 3, transactions := [txEx] }

/-- The candidate block the simulator builds from `verifiedEx`. -/
def candidateEx : Block :=
  Simulator.process_verified_proposal hashProvEx simStateEx verifiedEx

/-! ## The claims under test, as stated -/

/-- Extracts the heights of the `appendBlock` events of a commit trace. -/
def appendedIds (tr : List CommitEvent) : List Nat :=
  tr.filterMap
    (fun e => match e with
      | CommitEvent.appendBlock id => some id
      | _ => none)

/-- Strict ascending order of a list of heights. -/
def ascendingNat : List Nat → Bool
  | [] => true
  | [_] => true
  | a :: b :: rest => decide (a < b) && ascendingNat (b :: rest)

/-- The step order claim C1 asserts for `StorageImpl::commit`: lock, the
staged appends, the WSV transaction commit, then the secondary-index
finalization (`exec` + `sync_commit`), then unlock. -/
def claimedCommitOrder (ms : MutableStorageImpl) (tr : List CommitEvent) : Prop :=
  tr = [CommitEvent.lockAcquire]
    ++ ms.block_store_.map (fun e => CommitEvent.appendBlock e.1)
    ++ [CommitEvent.wsvCommit, CommitEvent.indexExec,
        CommitEvent.indexSyncCommit, CommitEvent.lockRelease]

/-- Claim C1 as stated: every all-backends-up commit follows the claimed
step order. -/
def commitOrderClaim : Prop :=
  ∀ (b : CommitBehavior) (bs0 : List (Nat × List Nat)) (ms : MutableStorageImpl),
    CommitBehavior.allOk b →
    claimedCommitOrder ms (StorageImpl.commit b bs0 ms).trace

/-- Claim C2 as stated (its error-surfacing half): any failing commit hands
the caller `StorageError.CommitFailed`. -/
def commitFailedClaim : Prop :=
  ∀ (b : CommitBehavior) (bs0 : List (Nat × List Nat)) (ms : MutableStorageImpl),
    (StorageImpl.commit b bs0 ms).error ≠ none →
    (StorageImpl.commit b bs0 ms).error = some StorageError.CommitFailed

/-- Claim C3 as stated: while a successfully created mutable view is
outstanding, a second `createMutableStorage` call does not yield a second
live view.  In the source the call's result depends only on its inputs —
`StorageImpl` keeps no record of outstanding views — so a repeated call with
unchanged inputs is exactly "a second call while the first view is
outstanding". -/
def mutableViewExclusivityClaim : Prop :=
  ∀ (b : CreateBehavior) (cfg : StorageConfig) (store : List Block)
    (v : MutableStorageImpl),
    StorageImpl.createMutableStorage b cfg store = some v →
    StorageImpl.createMutableStorage b cfg store = none

/-- Claim C4 as stated: a proposal whose predecessor block is not found is
dropped (no emission, no temporary WSV); a found predecessor gates the
proposal by `last_block.height + 1 = proposal.height`. -/
def proposalGateClaim : Prop :=
  ∀ (validate : Proposal → Proposal) (store : List Block) (p : Proposal),
    (blockAt store (p.height - 1) = none →
      (Simulator.process_proposal validate store p).emitted = none
        ∧ (Simulator.process_proposal validate store p).temporaryWsvOpened = false)
    ∧ (∀ blk, blockAt store (p.height - 1) = some blk →
        blk.height + 1 ≠ p.height →
        (Simulator.process_proposal validate store p).emitted = none
          ∧ (Simulator.process_proposal validate store p).temporaryWsvOpened = false)
    ∧ (∀ blk, blockAt store (p.height - 1) = some blk →
        blk.height + 1 = p.height →
        (Simulator.process_proposal validate store p).emitted = some (validate p)
          ∧ (Simulator.process_proposal validate store p).temporaryWsvOpened = true)

/-- Claim C7 as stated: enqueue iff stateless-valid, and the synchronous
response reports which — an accepted and a rejected submission receive
distinguishable responses. -/
def toriiReportsClaim : Prop :=
  ∀ (validate : Transaction → Bool) (queue : List Transaction)
    (t u : Transaction),
    ((CommandService.Torii validate queue t).queue = queue ++ [t]
      ↔ validate t = true)
    ∧ (validate t = true → validate u = false →
        (CommandService.Torii validate queue t).response
          ≠ (CommandService.Torii validate queue u).response)

/-- Claim C9 as stated: after storage initialization the WSV session has
both the read-only and the serializable characteristics set. -/
def serializableReadOnlyClaim : Prop :=
  wsvSessionAfterInit.readOnly = true ∧ wsvSessionAfterInit.serializable = true


/-! ## Helper lemmas -/

/-- When every `add` succeeds, the append loop emits one `appendBlock` event
and writes one serialized file per staged map entry, in map order, and
reports no failure. -/
theorem appendStagedBlocks_allOk (b : CommitBehavior)
    (l : List (Nat × Block)) (h : ∀ id ∈ l.map Prod.fst, b.addOk id = true) :
    appendStagedBlocks b l
      = (l.map (fun e => CommitEvent.appendBlock e.1),
         l.map (fun e => (e.1, serializeBlock e.2)), none) := by
  induction l with
  | nil => rfl
  | cons hd tl ih =>
    have hhd : b.addOk hd.1 = true := h hd.1 (by simp)
    have htl : ∀ id ∈ tl.map Prod.fst, b.addOk id = true :=
      fun id hm => h id (by simp_all)
    simp [appendStagedBlocks, hhd, ih htl]

/-- The single fold step of `topBlock` yields a block dominating both the
new block and whatever the accumulator held. -/
theorem topBlockStep_dominates (acc : Option Block) (hd : Block) :
    ∃ m, topBlockStep acc hd = some m
      ∧ hd.height ≤ m.height
      ∧ (∀ a, acc = some a → a.height ≤ m.height)
      ∧ (m = hd ∨ acc = some m) := by
  cases acc with
  | none =>
    exact ⟨hd, rfl, Nat.le_refl _, by simp, Or.inl rfl⟩
  | some a =>
    by_cases hle : a.height ≤ hd.height
    · refine ⟨hd, by simp [topBlockStep, hle], Nat.le_refl _, ?_, Or.inl rfl⟩
      intro x hx
      cases hx
      exact hle
    · refine ⟨a, by simp [topBlockStep, hle], Nat.le_of_not_le hle, ?_, Or.inr rfl⟩
      intro x hx
      cases hx
      exact Nat.le_refl _

/-- `topBlock` returns a member of the store of maximal height: the sanity
check that the spec-modelled `getTopBlocks(1)` indeed picks "the block at
maximum height" (§3's canonical chain head). -/
theorem topBlock_is_max (store : List Block) (blk : Block)
    (h : topBlock store = some blk) :
    blk ∈ store ∧ ∀ b' ∈ store, b'.height ≤ blk.height := by
  suffices haux : ∀ (l : List Block) (acc : Option Block) (blk : Block),
      l.foldl topBlockStep acc = some blk →
      (blk ∈ l ∨ acc = some blk)
        ∧ (∀ b' ∈ l, b'.height ≤ blk.height)
        ∧ (∀ m, acc = some m → m.height ≤ blk.height) by
    obtain ⟨h1, h2, _⟩ := haux store none blk h
    exact ⟨h1.resolve_right (by simp), h2⟩
  intro l
  induction l with
  | nil =>
    intro acc blk hfold
    simp only [List.foldl_nil] at hfold
    refine ⟨Or.inr hfold, by simp, fun m hm => ?_⟩
    rw [hfold] at hm
    cases hm
    exact Nat.le_refl _
  | cons hd tl ih =>
    intro acc blk hfold
    simp only [List.foldl_cons] at hfold
    obtain ⟨m', hstep, hhd, hacc, hm'src⟩ := topBlockStep_dominates acc hd
    rw [hstep] at hfold
    obtain ⟨ih1, ih2, ih3⟩ := ih (some m') blk hfold
    have hm'le : m'.height ≤ blk.height := ih3 m' rfl
    refine ⟨?_, ?_, ?_⟩
    · rcases ih1 with hmem | heq
      · exact Or.inl (List.mem_cons_of_mem _ hmem)
      · cases heq
        rcases hm'src with rfl | hsrc
        · exact Or.inl (List.mem_cons_self _ _)
        · exact Or.inr hsrc
    · intro b' hb'
      rcases List.mem_cons.mp hb' with rfl | hmem
      · exact Nat.le_trans hhd hm'le
      · exact ih2 b' hmem
    · intro m hm
      exact Nat.le_trans (hacc m hm) hm'le

/-! ## Claim C9 — WSV session characteristics -/

/-- C9, counterexample: the constructor's statement list sets only the
read-only characteristic; the serializable characteristic remains at its
session default, so the claim "both serializable and read-only session
characteristics are set" is false for the code. -/
theorem wsv_session_counterexample : ¬ serializableReadOnlyClaim := by
  intro h
  exact absurd h.2 (by decide)

/-- C9 (amended): after `StorageImpl` construction the WSV session is pinned
to read-only (`SET SESSION CHARACTERISTICS AS TRANSACTION READ ONLY;`), but
no serializable isolation is set — the session keeps the default isolation
level. -/
theorem wsv_session_read_only :
    wsvSessionAfterInit
      = { readOnly := true, serializable := false } := by
  decide

/-! ## Claim C7 — Torii enqueue and synchronous report -/

/-- C7, counterexample: a stateless-valid and a stateless-invalid submission
receive the byte-identical default `ToriiResponse`, so the synchronous
response does not report acceptance versus rejection. -/
theorem torii_report_counterexample : ¬ toriiReportsClaim := by
  intro h
  exact (h sigValidate [] { hash := 1, sigsValid := true }
      { hash := 2, sigsValid := false }).2 rfl rfl (by decide)

/-- C7 (amended): the transaction is appended to the ordering queue if and
only if stateless validation succeeds, and the RPC returns synchronously
with `grpc::Status::OK` — but the response is the default-constructed
`ToriiResponse` in both branches, so it does not report which outcome
occurred. -/
theorem torii_enqueue_iff (validate : Transaction → Bool)
    (queue : List Transaction) (t : Transaction) :
    ((CommandService.Torii validate queue t).queue = queue ++ [t]
      ↔ validate t = true)
    ∧ ((CommandService.Torii validate queue t).queue = queue
      ↔ validate t = false)
    ∧ (CommandService.Torii validate queue t).response
      = ToriiResponse.protoDefault
    ∧ (CommandService.Torii validate queue t).status = GrpcStatus.ok := by
  have hne : queue ++ [t] ≠ queue := by
    intro heq
    have := congrArg List.length heq
    simp at this
  cases hv : validate t with
  | true =>
    refine ⟨by simp [CommandService.Torii, hv], ?_, by simp [CommandService.Torii, hv], by simp [CommandService.Torii, hv]⟩
    simp only [CommandService.Torii, hv, if_true]
    exact ⟨fun heq => absurd heq hne, fun hfalse => by cases hfalse⟩
  | false =>
    refine ⟨?_, by simp [CommandService.Torii, hv], by simp [CommandService.Torii, hv], by simp [CommandService.Torii, hv]⟩
    simp only [CommandService.Torii, hv, if_false]
    exact ⟨fun heq => absurd heq.symm hne, fun htrue => by cases htrue⟩

/-- Witness for `torii_enqueue_iff` at a concrete accepted submission. -/
theorem torii_enqueue_iff_witness :
    (CommandService.Torii sigValidate [] validTx).queue = [] ++ [validTx] := by
  exact (torii_enqueue_iff sigValidate [] validTx).1.mpr (by decide)

/-! ## Claim C8 — Torii response content -/

/-- C8: the source's own TODO comments ("Return validation failed message",
"Return tracking log number (hash)") record the intended behaviour the spec
states, but the handler assigns a default `ToriiResponse` in both branches:
a forged-signature submission is not answered with `STATELESS_FAILED`, and
an accepted submission carries no transaction hash. -/
theorem torii_response_stub :
    sigValidate forgedTx = false
    ∧ (CommandService.Torii sigValidate [] forgedTx).response.code
      ≠ ResponseCode.statelessFailed
    ∧ (CommandService.Torii sigValidate [] forgedTx).response.code
      = ResponseCode.unset
    ∧ sigValidate validTx = true
    ∧ (CommandService.Torii sigValidate [] validTx).response.txHash = none := by
  decide

/-! ## Claim C5 — candidate block construction -/

/-- C5: on a concrete verified proposal (one transaction of hash 7, cached
last block `blk2`) the candidate block takes `prev_hash` from the cached
last block and its transactions from the proposal, but its `merkle_root` is
the all-zero stub (`merkle_root.fill(0)`), not the merkle root of the
transaction hashes, and its signature set is a single default-constructed
signature (`sigs.push_back({})`), not empty. -/
theorem process_verified_proposal_stub :
    candidateEx.prev_hash = blk2.hash
    ∧ candidateEx.transactions = verifiedEx.transactions
    ∧ candidateEx.txs_number = 1
    ∧ candidateEx.hash
      = hashProvEx { candidateEx with hash := 0, sigs := [] }
    ∧ candidateEx.merkle_root = 0
    ∧ merkleRoot combineEx (verifiedEx.transactions.map (fun t => t.hash)) = 7
    ∧ candidateEx.merkle_root
      ≠ merkleRoot combineEx (verifiedEx.transactions.map (fun t => t.hash))
    ∧ candidateEx.sigs = [{ pubkey := 0, sig := 0 }]
    ∧ candidateEx.sigs ≠ [] := by
  decide

/-! ## Claim C1 — commit step order -/

/-- C1, counterexample: on a view with one staged block and all backends up,
the commit trace finalizes the secondary index (`index_->exec()`,
`index_->sync_commit()`) *before* committing the WSV transaction
(`exec("COMMIT;")`), so the claimed order (WSV commit before index
finalization) is false for the code. -/
theorem commit_order_counterexample : ¬ commitOrderClaim := by
  intro h
  have := h commitAllOk [] msEx ⟨fun _ => rfl, rfl, rfl, rfl⟩
  unfold claimedCommitOrder at this
  exact absurd this (by decide)

/-- `appendedIds` recovers the staged heights from a pure run of append
events. -/
theorem appendedIds_of_append_events (l : List (Nat × Block)) :
    List.filterMap
      (fun e => match e with
        | CommitEvent.appendBlock id => some id
        | _ => none)
      (l.map (fun e => CommitEvent.appendBlock e.1))
      = l.map Prod.fst := by
  induction l with
  | nil => rfl
  | cons hd tl ih => simp [ih]

/-- C1 (amended): `StorageImpl::commit` performs, between acquiring and
releasing the exclusive write lock, exactly: the append of every staged
block in staged-map order (ascending height, by the `std::map` key order)
in canonical serialized form, then the secondary-index finalization
(`exec` then `sync_commit`), then the WSV transaction commit — i.e. the
index finalization precedes the WSV commit, not the other way around. -/
theorem commit_step_order (b : CommitBehavior) (bs0 : List (Nat × List Nat))
    (ms : MutableStorageImpl)
    (hadd : ∀ id ∈ ms.block_store_.map Prod.fst, b.addOk id = true)
    (h1 : b.indexExecOk = true) (h2 : b.indexSyncCommitOk = true)
    (h3 : b.wsvCommitOk = true)
    (hasc : ascendingNat (ms.block_store_.map Prod.fst) = true) :
    (StorageImpl.commit b bs0 ms).trace
      = [CommitEvent.lockAcquire]
        ++ ms.block_store_.map (fun e => CommitEvent.appendBlock e.1)
        ++ [CommitEvent.indexExec, CommitEvent.indexSyncCommit,
            CommitEvent.wsvCommit, CommitEvent.lockRelease]
    ∧ appendedIds (StorageImpl.commit b bs0 ms).trace
      = ms.block_store_.map Prod.fst
    ∧ ascendingNat (appendedIds (StorageImpl.commit b bs0 ms).trace) = true
    ∧ (StorageImpl.commit b bs0 ms).blockFiles
      = bs0 ++ ms.block_store_.map (fun e => (e.1, serializeBlock e.2)) := by
  have hloop := appendStagedBlocks_allOk b ms.block_store_ hadd
  have htrace : (StorageImpl.commit b bs0 ms).trace
      = [CommitEvent.lockAcquire]
        ++ ms.block_store_.map (fun e => CommitEvent.appendBlock e.1)
        ++ [CommitEvent.indexExec, CommitEvent.indexSyncCommit,
            CommitEvent.wsvCommit, CommitEvent.lockRelease] := by
    simp [StorageImpl.commit, hloop, h1, h2, h3]
  have hids : appendedIds (StorageImpl.commit b bs0 ms).trace
      = ms.block_store_.map Prod.fst := by
    rw [htrace]
    simp only [appendedIds, List.filterMap_append,
      appendedIds_of_append_events]
    simp [List.filterMap]
  refine ⟨htrace, hids, by rw [hids]; exact hasc, ?_⟩
  simp [StorageImpl.commit, hloop, h1, h2, h3]

/-- Witness for `commit_step_order`: the one-staged-block commit. -/
theorem commit_step_order_witness :
    (StorageImpl.commit commitAllOk [] msEx).trace
      = [CommitEvent.lockAcquire, CommitEvent.appendBlock 1,
         CommitEvent.indexExec, CommitEvent.indexSyncCommit,
         CommitEvent.wsvCommit, CommitEvent.lockRelease] := by
  have := (commit_step_order commitAllOk [] msEx
    (by decide) rfl rfl rfl (by decide)).1
  simpa [msEx] using this

/-! ## Claim C2 — commit failure surfacing -/

/-- C2, counterexample: when a `block_store_->add` fails, the error the
caller receives is the raw backend exception
(`BackendFailure (blockStoreAdd 1)` here), not the `CommitFailed` value the
claim names — `StorageImpl::commit` installs no handler and defines no such
error. -/
theorem commit_error_counterexample : ¬ commitFailedClaim := by
  intro h
  have := h commitAddFails [] msEx (by decide)
  exact absurd this (by decide)

/-- C2 (amended): a commit fails exactly when it does not set the view's
`committed` flag; a failing commit surfaces the raw backend exception of
the failing step to the caller (never a `CommitFailed` value, which the
code does not define) and leaves `committed = false`, so the view is rolled
back when dropped rather than being explicitly poisoned; a successful
commit surfaces no error. -/
theorem commit_failure_semantics (b : CommitBehavior)
    (bs0 : List (Nat × List Nat)) (ms : MutableStorageImpl) :
    ((StorageImpl.commit b bs0 ms).error = none
      ↔ (StorageImpl.commit b bs0 ms).committed = true)
    ∧ (∀ e, (StorageImpl.commit b bs0 ms).error = some e →
        (∃ s, e = StorageError.BackendFailure s)
          ∧ (StorageImpl.commit b bs0 ms).committed = false)
    ∧ (StorageImpl.commit b bs0 ms).error ≠ some StorageError.CommitFailed := by
  cases hr : (appendStagedBlocks b ms.block_store_).2.2 with
  | some id =>
    refine ⟨?_, ?_, ?_⟩ <;>
      simp [StorageImpl.commit, hr]
  | none =>
    cases h1 : b.indexExecOk <;> cases h2 : b.indexSyncCommitOk <;>
      cases h3 : b.wsvCommitOk <;>
      refine ⟨?_, ?_, ?_⟩ <;>
        simp [StorageImpl.commit, hr, h1, h2, h3]

/-- Witness for `commit_failure_semantics`: the failing-append commit leaves
the view uncommitted. -/
theorem commit_failure_semantics_witness :
    (StorageImpl.commit commitAddFails [] msEx).committed = false := by
  exact ((commit_failure_semantics commitAddFails [] msEx).2.1
    (StorageError.BackendFailure (BackendStep.blockStoreAdd 1)) (by decide)).2

/-! ## Claim C3 — mutable view exclusivity -/

/-- C3, counterexample: with all backends reachable and the two-block store,
a call to `createMutableStorage` yields a live view, and — the function
consulting no record of outstanding views — an immediately repeated call
yields a second live view instead of failing. -/
theorem create_mutable_exclusivity_counterexample :
    ¬ mutableViewExclusivityClaim := by
  intro h
  have h1 : StorageImpl.createMutableStorage createAllOk cfgEx storeEx
      = some { top_hash := 17, block_store_ := [], committed := false } := by
    rfl
  have h2 := h createAllOk cfgEx storeEx _ h1
  rw [h2] at h1
  exact Option.noConfusion h1

/-- C3 (amended): `createMutableStorage` enforces no exclusivity: whenever
the command-executor factory, the PostgreSQL activation, and the redis
connect (made, as in the source, against the *postgres* endpoint) succeed,
the call returns a live mutable view — independently of any outstanding
view, since the call neither consults nor records one.  A second call while
a view is outstanding therefore yields a second live mutable view. -/
theorem create_mutable_no_exclusivity (b : CreateBehavior)
    (cfg : StorageConfig) (store : List Block)
    (h1 : b.cmdExecFactoryOk = true) (h2 : b.pgActivateOk = true)
    (h3 : b.redisConnectOk cfg.pgHost cfg.pgPort = true) :
    (StorageImpl.createMutableStorage b cfg store).isSome = true := by
  simp [StorageImpl.createMutableStorage, h1, h2, h3]

/-- Witness for `create_mutable_no_exclusivity`. -/
theorem create_mutable_no_exclusivity_witness :
    (StorageImpl.createMutableStorage createAllOk cfgEx storeEx).isSome
      = true := by
  exact create_mutable_no_exclusivity createAllOk cfgEx storeEx rfl rfl rfl

/-! ## Claim C6 — top-hash pre-initialization -/

/-- C6: every successfully created mutable view is pre-initialized with the
hash of the current top block — the block `getTopBlocks(1)` delivers, which
`topBlock_is_max` certifies to be a stored block of maximum height. -/
theorem create_mutable_top_hash (b : CreateBehavior) (cfg : StorageConfig)
    (store : List Block) (blk : Block)
    (h1 : b.cmdExecFactoryOk = true) (h2 : b.pgActivateOk = true)
    (h3 : b.redisConnectOk cfg.pgHost cfg.pgPort = true)
    (htop : topBlock store = some blk) :
    StorageImpl.createMutableStorage b cfg store
      = some { top_hash := blk.hash, block_store_ := [], committed := false } := by
  simp [StorageImpl.createMutableStorage, h1, h2, h3, htop]

/-- Witness for `create_mutable_top_hash`: on the two-block store the view
starts from `blk2.hash = 17`. -/
theorem create_mutable_top_hash_witness :
    StorageImpl.createMutableStorage createAllOk cfgEx storeEx
      = some { top_hash := 17, block_store_ := [], committed := false } := by
  exact create_mutable_top_hash createAllOk cfgEx storeEx blk2
    rfl rfl rfl (by decide)

/-! ## Claim C10 — empty store sentinel -/

/-- C10: on an empty block store the `getTopBlocks(1)` subscription never
fires, `top_hash` stays `nullopt`, and `createMutableStorage` still succeeds
with `top_hash.value_or(hash256_t{})` — the all-zero genesis sentinel. -/
theorem create_mutable_empty_store (b : CreateBehavior) (cfg : StorageConfig)
    (h1 : b.cmdExecFactoryOk = true) (h2 : b.pgActivateOk = true)
    (h3 : b.redisConnectOk cfg.pgHost cfg.pgPort = true) :
    StorageImpl.createMutableStorage b cfg []
      = some { top_hash := 0, block_store_ := [], committed := false } := by
  simp [StorageImpl.createMutableStorage, h1, h2, h3, topBlock]

/-- Witness for `create_mutable_empty_store`. -/
theorem create_mutable_empty_store_witness :
    StorageImpl.createMutableStorage createAllOk cfgEx []
      = some { top_hash := 0, block_store_ := [], committed := false } := by
  exact create_mutable_empty_store createAllOk cfgEx rfl rfl rfl

/-! ## Claim C4 — proposal gating by the previous block -/

/-- C4, counterexample: on an empty block store, a proposal at height 1
finds no block at height 0, yet is *not* dropped — `last_block` is the
default-constructed `model::Block()` with height 0, `0 + 1 = 1` passes the
gate, a temporary WSV is opened, and a verified proposal is emitted. -/
theorem process_proposal_counterexample : ¬ proposalGateClaim := by
  intro h
  have := (h (fun q => q) [] { height := 1, transactions := [] }).1 (by decide)
  exact absurd this.1 (by decide)

/-- C4 (amended): the simulator keeps the *last* block the
`getBlocks(height-1, height)` subscription delivers, defaulting to the
height-0 `model::Block()` when none is found, and gates on
`last_block.height + 1 = proposal.height`.  Hence a proposal whose
predecessor is found is validated and emitted exactly when the heights
chain, and a proposal whose predecessor is missing is dropped *except* at
height 1, where the default block passes the gate, a temporary WSV is
opened, and exactly one verified proposal is emitted anyway. -/
theorem process_proposal_gate (validate : Proposal → Proposal)
    (store : List Block) (txs : List Transaction) (h : Nat) :
    (blockAt store h = none → h = 0 →
      (Simulator.process_proposal validate store
          { height := h + 1, transactions := txs }).emitted
        = some (validate { height := h + 1, transactions := txs })
      ∧ (Simulator.process_proposal validate store
          { height := h + 1, transactions := txs }).temporaryWsvOpened = true)
    ∧ (blockAt store h = none → h ≠ 0 →
      (Simulator.process_proposal validate store
          { height := h + 1, transactions := txs }).emitted = none
      ∧ (Simulator.process_proposal validate store
          { height := h + 1, transactions := txs }).temporaryWsvOpened = false)
    ∧ (∀ blk, blockAt store h = some blk → blk.height + 1 = h + 1 →
      (Simulator.process_proposal validate store
          { height := h + 1, transactions := txs }).emitted
        = some (validate { height := h + 1, transactions := txs })
      ∧ (Simulator.process_proposal validate store
          { height := h + 1, transactions := txs }).temporaryWsvOpened = true)
    ∧ (∀ blk, blockAt store h = some blk → blk.height + 1 ≠ h + 1 →
      (Simulator.process_proposal validate store
          { height := h + 1, transactions := txs }).emitted = none
      ∧ (Simulator.process_proposal validate store
          { height := h + 1, transactions := txs }).temporaryWsvOpened = false) := by
  have hkey : (getBlocks store (h + 1 - 1) (h + 1)).getLast? = blockAt store h := by
    rw [Nat.add_sub_cancel]
    rfl
  refine ⟨?_, ?_, ?_, ?_⟩
  · intro hb h0
    subst h0
    simp only [Simulator.process_proposal]
    rw [hkey, hb]
    simp [Block.zero]
  · intro hb hne
    have hcond : Block.zero.height + 1 ≠ h + 1 := by
      simp only [Block.zero]
      omega
    simp only [Simulator.process_proposal]
    rw [hkey, hb]
    simp only [Option.getD]
    rw [if_pos hcond]
    exact ⟨rfl, rfl⟩
  · intro blk hb heq
    simp only [Simulator.process_proposal]
    rw [hkey, hb]
    simp only [Option.getD]
    rw [if_neg (fun hc => hc heq)]
    exact ⟨rfl, rfl⟩
  · intro blk hb hne
    simp only [Simulator.process_proposal]
    rw [hkey, hb]
    simp only [Option.getD]
    rw [if_pos hne]
    exact ⟨rfl, rfl⟩

/-- Witness for `process_proposal_gate`: on the two-block store a height-2
proposal chains on `blk1` and is emitted. -/
theorem process_proposal_gate_witness :
    (Simulator.process_proposal (fun q => q) storeEx
        { height := 2, transactions := [] }).emitted
      = some { height := 2, transactions := [] } := by
  exact ((process_proposal_gate (fun q => q) storeEx [] 1).2.2.1 blk1
    (by decide) (by decide)).1
